import Mathlib

/-!
Verification of the ex-sftp component (src/component.py): a shallow embedding of
its key parsing, connection classification, destination-path construction,
retrying upload, orchestration and exit-code logic, together with theorems
settling the specification claims.
-/

namespace ExSftp

/-- Decidable equality of `Except` outcomes, used to evaluate the embedded
functions on concrete inputs. -/
instance {ε α : Type} [DecidableEq ε] [DecidableEq α] : DecidableEq (Except ε α) := fun a b =>
  match a, b with
  | .ok x, .ok y =>
    if h : x = y then isTrue (congrArg Except.ok h)
    else isFalse (fun hc => h (Except.ok.inj hc))
  | .error x, .error y =>
    if h : x = y then isTrue (congrArg Except.error h)
    else isFalse (fun hc => h (Except.error.inj hc))
  | .ok _, .error _ => isFalse (fun hc => Except.noConfusion hc)
  | .error _, .ok _ => isFalse (fun hc => Except.noConfusion hc)

/-- Python exception values relevant to the component. `userException` models the
component's own `UserException(msg)`. The remaining constructors model the
library/builtin exception classes the code catches or raises. Subclass
relations of the Python hierarchy (PermissionError, FileNotFoundError and
ConnectionError are subclasses of OSError = IOError; AuthenticationException is
a subclass of SSHException) are modelled by the `is...` predicates below, which
mirror `except`-clause matching. -/
inductive PyErr where
  | userException (msg : String)
  | authenticationException
  | sshException
  | gaierror
  | connectionError
  | fileNotFoundError
  | permissionError
  | ioError
  | indexError
  deriving DecidableEq, Repr

/-- `isinstance(e, IOError)`: in Python 3, IOError is OSError, and
ConnectionError, FileNotFoundError and PermissionError are its subclasses. -/
def isIOError : PyErr → Bool
  | .connectionError => true
  | .fileNotFoundError => true
  | .permissionError => true
  | .ioError => true
  | _ => false

/-- `isinstance(e, paramiko.SSHException)`: AuthenticationException is a
subclass of SSHException. -/
def isSSHException : PyErr → Bool
  | .authenticationException => true
  | .sshException => true
  | _ => false

/-- `isinstance(e, UserException)`. -/
def isUserException : PyErr → Bool
  | .userException _ => true
  | _ => false

/-- The exception tuple of the backoff decorator on
`_try_to_execute_sftp_operation`: `(ConnectionError, FileNotFoundError,
IOError)`, matched with Python subclass semantics. -/
def isRetryableSftpError (e : PyErr) : Bool :=
  (e = .connectionError) || (e = .fileNotFoundError) || isIOError e

/-- `MAX_RETRIES = 5` (component.py line 18). -/
def MAX_RETRIES : Nat := 5

/-- The `backoff.on_exception(..., max_tries=n)` combinator: the operation is
given the 1-based attempt number; on an exception matched by `retryable` with
tries remaining it is retried, otherwise the exception is re-raised. Returns
the final outcome paired with the number of attempts actually made. The
`tries = 0` case is unreachable (the decorator is used with max_tries = 5). -/
def backoffOnException (retryable : PyErr → Bool) (op : Nat → Except PyErr Unit) :
    Nat → Nat → Except PyErr Unit × Nat
  | _, 0 => (.error .ioError, 0)
  | attempt, 1 => (op attempt, 1)
  | attempt, t + 2 =>
    match op attempt with
    | .ok a => (.ok a, 1)
    | .error e =>
      if retryable e then
        let r := backoffOnException retryable op (attempt + 1) (t + 1)
        (r.1, r.2 + 1)
      else (.error e, 1)

/-- `_try_to_execute_sftp_operation` (component.py lines 208-212). -/
def tryToExecuteSftpOperation (op : Nat → Except PyErr Unit) : Except PyErr Unit × Nat :=
  backoffOnException isRetryableSftpError op 1 MAX_RETRIES

/-- Configuration parameters read by the upload path: `path`, `append_date`
(its truthiness), and `append_date_format` (absent means the `.get` default is
used). -/
structure Params where
  remotePath : String
  appendDate : Bool
  appendDateFormat : Option String
  deriving DecidableEq, Repr

/-- `os.path.basename` for a POSIX path: the part after the last slash
(`p[p.rfind(sep) + 1:]`). -/
def basename (p : String) : String :=
  String.mk ((p.data.reverse.takeWhile (fun c => c ≠ '/')).reverse)

/-- Index of the last occurrence of `c` in `cs`, if any. -/
def lastIndexOfChar (cs : List Char) (c : Char) : Option Nat :=
  (cs.enum.filterMap (fun pr => if pr.2 = c then some pr.1 else none)).getLast?

/-- `os.path.splitext` on a separator-free path component (the code always
applies it to the result of `basename`): split at the last dot unless every
character before that dot is itself a dot (leading dots of the component are
part of the root, so a dotfile such as ".bashrc" has an empty extension). -/
def splitext (p : String) : String × String :=
  let cs := p.data
  match lastIndexOfChar cs '.' with
  | none => (p, "")
  | some d =>
    if (cs.take d).any (fun ch => ch ≠ '.') then
      (String.mk (cs.take d), String.mk (cs.drop d))
    else (p, "")

/-- The trailing-slash handling of `get_output_destination` (lines 201-203):
`file_path[-1]` raises IndexError on an empty string; otherwise a single "/" is
appended exactly when the last character is not "/". -/
def normalizeRemotePath (filePath : String) : Except PyErr String :=
  match filePath.data.getLast? with
  | none => .error .indexError
  | some c => .ok (if c ≠ '/' then filePath ++ "/" else filePath)

/-- `get_output_destination` (lines 193-206). `strftimeNow` abstracts
`datetime.utcnow().strftime`: it maps a format string to the rendered current
UTC time. -/
def getOutputDestination (params : Params) (strftimeNow : String → String)
    (inputFileName : String) : Except PyErr String :=
  let timestampSuffix :=
    if params.appendDate then
      "_" ++ strftimeNow (params.appendDateFormat.getD "%Y%m%d%H%M%S")
    else ""
  match normalizeRemotePath params.remotePath with
  | .error e => .error e
  | .ok filePath =>
    let fe := splitext (basename inputFileName)
    .ok (filePath ++ fe.1 ++ timestampSuffix ++ fe.2)

/-- Message of the `FileNotFoundError` handler in `_upload_file` (lines 185-187). -/
def remotePathNotFoundMessage (remotePath : String) : String :=
  "Destination path: \x27" ++ remotePath ++
    "\x27 in SFTP Server not found, recheck the remote destination path"

/-- Message of the `PermissionError` handler in `_upload_file` (lines 189-191). -/
def remotePermissionDeniedMessage (remotePath : String) : String :=
  "Permission Error: you do not have permissions to write to \x27" ++ remotePath ++
    "\x27, choose a different directory on the SFTP server"

/-- The `except FileNotFoundError` / `except PermissionError` handlers wrapped
around the sftp operation in `_upload_file` (lines 182-191): each handler
matches exactly its class; any other exception propagates unchanged. -/
def classifySftpError (remotePath : String) : Except PyErr Unit → Except PyErr Unit
  | .ok _ => .ok ()
  | .error e =>
    if e = .fileNotFoundError then
      .error (.userException (remotePathNotFoundMessage remotePath))
    else if e = .permissionError then
      .error (.userException (remotePermissionDeniedMessage remotePath))
    else .error e

/-- `_upload_file` (lines 176-191): resolve the destination, run the sftp put
through the backoff wrapper, and classify a terminal FileNotFoundError or
PermissionError as a UserException naming the configured remote path. `op`
abstracts `self._sftp_client.put` per attempt; the result is paired with the
number of put attempts made (0 when destination resolution already raised). -/
def uploadFile (params : Params) (strftimeNow : String → String)
    (inputFileName : String) (op : Nat → Except PyErr Unit) : Except PyErr Unit × Nat :=
  match getOutputDestination params strftimeNow inputFileName with
  | .error e => (.error e, 0)
  | .ok _destination =>
    let attempt := tryToExecuteSftpOperation op
    (classifySftpError params.remotePath attempt.1, attempt.2)

/-- Message of the AuthenticationException handler in `connect_to_server`. -/
def connectFailedAuthMessage : String :=
  "Connection failed: recheck your authentication and host URL parameters"

/-- Message of both the SSHException and the socket.gaierror handlers in
`connect_to_server`. -/
def connectFailedHostMessage : String :=
  "Connection failed: recheck your host URL and port parameters"

/-- `connect_to_server` (lines 110-124): `raised` is the exception thrown by
the underlying `paramiko.Transport` construction/connect, `none` when the
handshake succeeds. The handler chain is matched in source order with Python
subclass semantics (an AuthenticationException is an SSHException but is
matched by the first clause). -/
def connectToServer (raised : Option PyErr) : Except PyErr Unit :=
  match raised with
  | none => .ok ()
  | some e =>
    if e = .authenticationException then .error (.userException connectFailedAuthMessage)
    else if isSSHException e then .error (.userException connectFailedHostMessage)
    else if e = .gaierror then .error (.userException connectFailedHostMessage)
    else .error e

/-- The four key algorithms tried by `_parse_private_key`, in source order. -/
inductive KeyAlg where
  | rsa
  | dss
  | ecdsa
  | ed25519
  deriving DecidableEq, Repr

/-- Outcome of one `paramiko.<Alg>Key.from_private_key(keyfile)` call: a
decoded key, a raised `paramiko.SSHException`, or a raised `IndexError`. -/
inductive DecodeOutcome where
  | ok
  | sshExc
  | indexErr
  deriving DecidableEq, Repr

/-- `_parse_private_key` (lines 141-174), instrumented with the list of
algorithms actually attempted. The RSA stage catches only
`paramiko.SSHException`, so an IndexError raised there propagates out of the
function at once; the DSS, ECDSA and Ed25519 stages each catch
`(paramiko.SSHException, IndexError)`, and the Ed25519 stage re-raises the
caught exception. -/
def parsePrivateKey (decode : KeyAlg → DecodeOutcome) :
    Except PyErr (Option KeyAlg) × List KeyAlg :=
  match decode .rsa with
  | .ok => (.ok (some .rsa), [.rsa])
  | .indexErr => (.error .indexError, [.rsa])
  | .sshExc =>
    match decode .dss with
    | .ok => (.ok (some .dss), [.rsa, .dss])
    | _ =>
      match decode .ecdsa with
      | .ok => (.ok (some .ecdsa), [.rsa, .dss, .ecdsa])
      | _ =>
        match decode .ed25519 with
        | .ok => (.ok (some .ed25519), [.rsa, .dss, .ecdsa, .ed25519])
        | .sshExc => (.error .sshException, [.rsa, .dss, .ecdsa, .ed25519])
        | .indexErr => (.error .indexError, [.rsa, .dss, .ecdsa, .ed25519])

/-- Message of the `(paramiko.SSHException, IndexError)` handler in
`get_private_key` (line 138). -/
def parsePrivateKeyFailedMessage : String := "Failed to parse private Key"

/-- `get_private_key` (lines 130-139): an empty key string is falsy, so no key
is parsed and `None` is returned; otherwise `_parse_private_key` runs and a
raised SSHException or IndexError is converted to a UserException. -/
def getPrivateKey (keystring : String) (decode : KeyAlg → DecodeOutcome) :
    Except PyErr (Option KeyAlg) :=
  if keystring = "" then .ok none
  else
    match (parsePrivateKey decode).1 with
    | .ok k => .ok k
    | .error e =>
      if isSSHException e || e = .indexError then
        .error (.userException parsePrivateKeyFailedMessage)
      else .error e

/-- Observable resource/transfer events of `run` after a successful connect. -/
inductive Event where
  | upload (i : Nat)
  | closeSftp
  | closeTransport
  deriving DecidableEq, Repr

/-- `_close_connection` (lines 126-128): the sftp sub-channel is closed first,
then the transport. -/
def closeConnection : List Event :=
  [.closeSftp, .closeTransport]

/-- The upload loop of `run` (lines 101-102): each task is a (task id, outcome
of its `_upload_file` call); tasks run in order and the first raised exception
aborts the loop and propagates. The event list records the attempted uploads. -/
def runBody : List (Nat × Except PyErr Unit) → Except PyErr Unit × List Event
  | [] => (.ok (), [])
  | (i, r) :: ts =>
    match r with
    | .ok _ =>
      let rest := runBody ts
      (rest.1, .upload i :: rest.2)
    | .error e => (.error e, [.upload i])

/-- The `try/except/finally` of `run` (lines 97-106) after a successful
connect: the loop result propagates unchanged and `_close_connection` runs on
every exit path. -/
def runComponent (tasks : List (Nat × Except PyErr Unit)) : Except PyErr Unit × List Event :=
  let body := runBody tasks
  (body.1, body.2 ++ closeConnection)

/-- The `__main__` handlers (lines 218-227): normal completion falls through
(exit code 0), a UserException exits 1, any other exception exits 2. -/
def mainExitCode : Except PyErr Unit → Nat
  | .ok _ => 0
  | .error e => if isUserException e then 1 else 2

/-- Modelled from the spec claim wording, for comparison with the code: split a
name so that "the extension is everything from the last dot of the name onward
(empty if no dot)". -/
def splitFromLastDot (name : String) : String × String :=
  match lastIndexOfChar name.data '.' with
  | none => (name, "")
  | some d => (String.mk (name.data.take d), String.mk (name.data.drop d))

/-- Modelled from the spec claim wording, for comparison with the code: the
resolved destination as `normalized_base ++ stem ++ optional_suffix ++
extension` with the stem/extension split of `splitFromLastDot`. -/
def resolveClaimFormula (base name : String) (dateStampEnabled : Bool)
    (dateFormat : Option String) (strftimeNow : String → String) : String :=
  let suffix :=
    if dateStampEnabled then "_" ++ strftimeNow (dateFormat.getD "%Y%m%d%H%M%S") else ""
  let se := splitFromLastDot name
  (match normalizeRemotePath base with
    | .ok t => t
    | .error _ => base) ++ se.1 ++ suffix ++ se.2

/-! ## Helper lemmas -/

/-- Unfolding step of the backoff wrapper: a successful attempt with tries to
spare returns at once. -/
theorem backoff_step_ok (r : PyErr → Bool) (op : Nat → Except PyErr Unit) (t a : Nat)
    (x : Unit) (hop : op a = Except.ok x) :
    backoffOnException r op a (t + 2) = (Except.ok x, 1) := by
  simp [backoffOnException, hop]

/-- Unfolding step of the backoff wrapper: a retryable exception with tries to
spare leads to another attempt. -/
theorem backoff_step_retry (r : PyErr → Bool) (op : Nat → Except PyErr Unit) (t a : Nat)
    (e : PyErr) (hop : op a = Except.error e) (hr : r e = true) :
    backoffOnException r op a (t + 2) =
      ((backoffOnException r op (a + 1) (t + 1)).1,
        (backoffOnException r op (a + 1) (t + 1)).2 + 1) := by
  simp [backoffOnException, hop, hr]

/-- Unfolding step of the backoff wrapper: a non-retryable exception is
re-raised at once. -/
theorem backoff_step_raise (r : PyErr → Bool) (op : Nat → Except PyErr Unit) (t a : Nat)
    (e : PyErr) (hop : op a = Except.error e) (hr : r e = false) :
    backoffOnException r op a (t + 2) = (Except.error e, 1) := by
  simp [backoffOnException, hop, hr]

/-- The backoff wrapper never makes more attempts than its tries budget. -/
theorem backoff_count_le (r : PyErr → Bool) (op : Nat → Except PyErr Unit) :
    ∀ t a, (backoffOnException r op a t).2 ≤ t
  | 0, a => by simp [backoffOnException]
  | 1, a => by simp [backoffOnException]
  | t + 2, a => by
    have ih := backoff_count_le r op (t + 1) (a + 1)
    cases hop : op a with
    | ok x =>
      rw [backoff_step_ok r op t a x hop]
      show 1 ≤ t + 2
      omega
    | error e =>
      cases hr : r e with
      | true =>
        rw [backoff_step_retry r op t a e hop hr]
        show (backoffOnException r op (a + 1) (t + 1)).2 + 1 ≤ t + 2
        omega
      | false =>
        rw [backoff_step_raise r op t a e hop hr]
        show 1 ≤ t + 2
        omega

/-- If every attempt raises the same retryable exception, the backoff wrapper
uses its whole budget and re-raises that exception. -/
theorem backoff_all_fail (r : PyErr → Bool) (op : Nat → Except PyErr Unit) (e : PyErr)
    (hop : ∀ n, op n = Except.error e) (hr : r e = true) :
    ∀ t a, backoffOnException r op a (t + 1) = (Except.error e, t + 1)
  | 0, a => by simp [backoffOnException, hop a]
  | t + 1, a => by
    have ih := backoff_all_fail r op e hop hr t (a + 1)
    rw [backoff_step_retry r op t a e (hop a) hr, ih]

/-- If attempts `a, ..., k - 1` raise retryable exceptions and attempt `k`
succeeds within the budget, the backoff wrapper returns success after exactly
`k + 1 - a` attempts. -/
theorem backoff_success (r : PyErr → Bool) (op : Nat → Except PyErr Unit) :
    ∀ t a k, a ≤ k → k < a + t →
      (∀ j, a ≤ j → j < k → ∃ e, op j = Except.error e ∧ r e = true) →
      op k = Except.ok () →
      backoffOnException r op a t = (Except.ok (), k + 1 - a)
  | 0, a, k, hak, hkt, _, _ => absurd hkt (by omega)
  | 1, a, k, hak, hkt, _, hok => by
    have hka : k = a := by omega
    subst hka
    simp [backoffOnException, hok]
  | t + 2, a, k, hak, hkt, hprev, hok => by
    rcases Nat.eq_or_lt_of_le hak with heq | hlt
    · subst heq
      simp [backoffOnException, hok]
    · obtain ⟨e, hope, hre⟩ := hprev a le_rfl hlt
      have ih := backoff_success r op (t + 1) (a + 1) k (by omega) (by omega)
        (fun j hj1 hj2 => hprev j (by omega) hj2) hok
      rw [backoff_step_retry r op t a e hope hre, ih]
      have harith : k + 1 - (a + 1) + 1 = k + 1 - a := by omega
      show (Except.ok (), k + 1 - (a + 1) + 1) = (Except.ok (), k + 1 - a)
      rw [harith]

/-- A non-empty remote base path makes destination resolution succeed. -/
theorem getOutputDestination_ok (params : Params) (clock : String → String)
    (name : String) (h : params.remotePath ≠ "") :
    ∃ d, getOutputDestination params clock name = Except.ok d := by
  have hne : params.remotePath.data ≠ [] := by
    intro hd
    exact h (show params.remotePath = "" from String.ext hd)
  cases hl : params.remotePath.data.getLast? with
  | none => exact absurd (List.getLast?_eq_none_iff.mp hl) hne
  | some c =>
    cases hdest : getOutputDestination params clock name with
    | ok d => exact ⟨d, rfl⟩
    | error e =>
      simp [getOutputDestination, normalizeRemotePath, hl] at hdest

/-- When destination resolution succeeds, `_upload_file` is the classified
result of the backoff-wrapped operation, with its attempt count. -/
theorem uploadFile_eq (params : Params) (clock : String → String) (name : String)
    (op : Nat → Except PyErr Unit) (d : String)
    (hd : getOutputDestination params clock name = Except.ok d) :
    uploadFile params clock name op =
      (classifySftpError params.remotePath (tryToExecuteSftpOperation op).1,
        (tryToExecuteSftpOperation op).2) := by
  simp only [uploadFile, hd]

/-- The body of `run` never emits a close event; closing happens only in the
`finally` block. -/
theorem runBody_no_close : ∀ tasks, Event.closeSftp ∉ (runBody tasks).2 ∧
    Event.closeTransport ∉ (runBody tasks).2
  | [] => by simp [runBody]
  | (i, r) :: ts => by
    cases r with
    | ok u =>
      have ih := runBody_no_close ts
      simp [runBody, ih.1, ih.2]
    | error e => simp [runBody]

/-- When every task succeeds, the body of `run` attempts each task in order and
returns success. -/
theorem runBody_all_ok : ∀ tasks : List (Nat × Except PyErr Unit),
    (∀ p ∈ tasks, p.2 = Except.ok ()) →
    runBody tasks = (Except.ok (), tasks.map (fun p => Event.upload p.1))
  | [], _ => rfl
  | (i, r) :: ts, h => by
    have hr : r = Except.ok () := h (i, r) (List.mem_cons_self _ _)
    subst hr
    have ih := runBody_all_ok ts (fun p hp => h p (List.mem_cons_of_mem _ hp))
    simp [runBody, ih]

/-- When the tasks are a successful prefix followed by a failing task, the body
of `run` attempts exactly the prefix and the failing task, then propagates the
failure; later tasks are not attempted. -/
theorem runBody_first_error : ∀ pre : List (Nat × Except PyErr Unit), ∀ k e post,
    (∀ p ∈ pre, p.2 = Except.ok ()) →
    runBody (pre ++ (k, Except.error e) :: post) =
      (Except.error e, pre.map (fun p => Event.upload p.1) ++ [Event.upload k])
  | [], k, e, post, _ => by simp [runBody]
  | (i, r) :: pre, k, e, post, h => by
    have hr : r = Except.ok () := h (i, r) (List.mem_cons_self _ _)
    subst hr
    have ih := runBody_first_error pre k e post (fun p hp => h p (List.mem_cons_of_mem _ hp))
    simp [runBody, ih]

/-! ## Claims -/

/-- Claim C1, counterexample: with every sftp put raising PermissionError, the
backoff wrapper makes 5 attempts, not 1 — a permission-denied error IS in the
retryable set, because PermissionError is a subclass of IOError, which the
decorator lists. The claim that upload fails immediately on the first attempt
is false. -/
theorem C1_counterexample :
    (tryToExecuteSftpOperation (fun _ => Except.error PyErr.permissionError)).2 = 5 ∧
    (tryToExecuteSftpOperation (fun _ => Except.error PyErr.permissionError)).2 ≠ 1 ∧
    isRetryableSftpError PyErr.permissionError = true := by decide

/-- Claim C1 (amended): a permission-denied error raised by the transfer call
is retryable (PermissionError is an IOError subclass, and IOError is in the
decorator tuple), so `RetryingUploader.upload` retries it up to the 5-attempt
maximum and only then classifies the terminal error as RemotePermissionDenied,
whose message names the configured remote path. -/
theorem C1_permission_retried_to_exhaustion (params : Params) (clock : String → String)
    (name : String) (op : Nat → Except PyErr Unit) (hbase : params.remotePath ≠ "")
    (hop : ∀ n, op n = Except.error PyErr.permissionError) :
    isRetryableSftpError PyErr.permissionError = true ∧
    uploadFile params clock name op =
      (Except.error (PyErr.userException (remotePermissionDeniedMessage params.remotePath)), 5) := by
  obtain ⟨d, hd⟩ := getOutputDestination_ok params clock name hbase
  have hall : tryToExecuteSftpOperation op = (Except.error PyErr.permissionError, 5) :=
    backoff_all_fail isRetryableSftpError op PyErr.permissionError hop rfl 4 1
  refine ⟨rfl, ?_⟩
  rw [uploadFile_eq params clock name op d hd, hall]
  rfl

/-- Witness for the amended claim C1 at a concrete configuration and a
constantly permission-denied operation. -/
theorem C1_permission_retried_to_exhaustion_witness :
    (⟨"p", false, none⟩ : Params).remotePath ≠ "" ∧
    (∀ n : Nat, (fun _ : Nat => (Except.error PyErr.permissionError : Except PyErr Unit)) n =
      Except.error PyErr.permissionError) ∧
    (isRetryableSftpError PyErr.permissionError = true ∧
      uploadFile ⟨"p", false, none⟩ (fun _ => "t") "f"
          (fun _ => Except.error PyErr.permissionError) =
        (Except.error (PyErr.userException (remotePermissionDeniedMessage "p")), 5)) :=
  ⟨by decide, fun _ => rfl,
    C1_permission_retried_to_exhaustion ⟨"p", false, none⟩ (fun _ => "t") "f"
      (fun _ => Except.error PyErr.permissionError) (by decide) (fun _ => rfl)⟩

/-- Claim C2, counterexample: a protocol negotiation failure (SSHException) and
a DNS resolution failure (socket.gaierror) produce literally the same
UserException — the three outcomes are not pairwise distinguishable and do not
each carry their own remediation message. -/
theorem C2_counterexample :
    connectToServer (some PyErr.sshException) = connectToServer (some PyErr.gaierror) ∧
    connectToServer (some PyErr.sshException) =
      Except.error (PyErr.userException connectFailedHostMessage) := ⟨rfl, rfl⟩

/-- Claim C2 (amended): `connect_to_server` maps each of the three handshake
failures to exactly one classified UserException; an authentication rejection
carries its own remediation message, while a protocol negotiation failure and
a DNS resolution failure share one message, so only two of the three outcomes
are distinguishable. -/
theorem C2_amended_error_classification :
    connectToServer (some PyErr.authenticationException) =
      Except.error (PyErr.userException connectFailedAuthMessage) ∧
    connectToServer (some PyErr.sshException) =
      Except.error (PyErr.userException connectFailedHostMessage) ∧
    connectToServer (some PyErr.gaierror) =
      Except.error (PyErr.userException connectFailedHostMessage) ∧
    connectFailedAuthMessage ≠ connectFailedHostMessage := by
  refine ⟨rfl, rfl, rfl, ?_⟩
  decide

/-- Claim C3, counterexample: a base directory already ending in two
separators is left unchanged by the normalization, so the destination is built
from a base ending in two separators, not exactly one. -/
theorem C3_counterexample :
    normalizeRemotePath "d//" = Except.ok "d//" ∧
    "d//".data.getLast? = some '/' ∧
    "d//".data.dropLast.getLast? = some '/' ∧
    ("d//" : String) ≠ "d/" := by decide

/-- Claim C3 (amended): for every non-empty base directory the normalization
ensures the base ends with at least one separator — it appends exactly one
separator when the last character is not "/", and leaves the string unchanged
(trailing repeats included) when it already ends with "/". -/
theorem C3_amended_normalization (s : String) (h : s ≠ "") :
    ∃ t, normalizeRemotePath s = Except.ok t ∧
      t.data.getLast? = some '/' ∧
      (s.data.getLast? = some '/' → t = s) ∧
      (s.data.getLast? ≠ some '/' → t = s ++ "/") := by
  have hne : s.data ≠ [] := fun hd => h (show s = "" from String.ext hd)
  cases hl : s.data.getLast? with
  | none => exact absurd (List.getLast?_eq_none_iff.mp hl) hne
  | some c =>
    by_cases hc : c = '/'
    · subst hc
      refine ⟨s, ?_, hl, fun _ => rfl, fun hcon => absurd rfl hcon⟩
      simp [normalizeRemotePath, hl]
    · refine ⟨s ++ "/", ?_, ?_, ?_, fun _ => rfl⟩
      · simp [normalizeRemotePath, hl, hc]
      · rw [String.data_append]
        show (s.data ++ ['/']).getLast? = some '/'
        exact List.getLast?_concat _
      · intro hsl
        exact absurd (Option.some.inj hsl) hc

/-- Witness for the amended claim C3 at a concrete slash-less base. -/
theorem C3_amended_normalization_witness :
    ("dir" : String) ≠ "" ∧
    (∃ t, normalizeRemotePath "dir" = Except.ok t ∧
      t.data.getLast? = some '/' ∧
      ("dir".data.getLast? = some '/' → t = "dir") ∧
      ("dir".data.getLast? ≠ some '/' → t = "dir" ++ "/")) :=
  ⟨by decide, C3_amended_normalization "dir" (by decide)⟩

/-- Claim C4, counterexample: for a key whose RSA decode raises IndexError
while the DSA decode would succeed, `get_private_key` fails with the
invalid-credential UserException after attempting only RSA — refuting both
"proceeding to the next algorithm on each decode failure" and "fails if and
only if all four algorithms fail". -/
theorem C4_counterexample :
    getPrivateKey "k" (fun a => match a with | .rsa => .indexErr | _ => .ok) =
      Except.error (PyErr.userException parsePrivateKeyFailedMessage) ∧
    (parsePrivateKey (fun a => match a with | .rsa => .indexErr | _ => .ok)).2 =
      [KeyAlg.rsa] ∧
    (fun a => match a with | KeyAlg.rsa => DecodeOutcome.indexErr | _ => DecodeOutcome.ok)
      KeyAlg.dss = DecodeOutcome.ok := by decide

/-- Claim C4 (amended): `get_private_key` returns none for empty input; for
non-empty input it attempts RSA, DSA, ECDSA, Ed25519 in that order and returns
the first credential whose decode succeeds, advancing past an algorithm-level
decode failure (SSHException) at every stage and past an IndexError at the
DSA, ECDSA and Ed25519 stages; it fails with the invalid-credential
UserException iff either the RSA decode raises IndexError (which ends the
chain at once) or the whole chain is exhausted with no decode succeeding. -/
theorem C4_amended_key_parse_contract (keystring : String) (decode : KeyAlg → DecodeOutcome)
    (h : keystring ≠ "") :
    (∀ d2 : KeyAlg → DecodeOutcome, getPrivateKey "" d2 = Except.ok none) ∧
    (decode .rsa = .ok → getPrivateKey keystring decode = Except.ok (some KeyAlg.rsa)) ∧
    (decode .rsa = .sshExc → decode .dss = .ok →
      getPrivateKey keystring decode = Except.ok (some KeyAlg.dss)) ∧
    (decode .rsa = .sshExc → decode .dss ≠ .ok → decode .ecdsa = .ok →
      getPrivateKey keystring decode = Except.ok (some KeyAlg.ecdsa)) ∧
    (decode .rsa = .sshExc → decode .dss ≠ .ok → decode .ecdsa ≠ .ok →
      decode .ed25519 = .ok →
      getPrivateKey keystring decode = Except.ok (some KeyAlg.ed25519)) ∧
    ((∃ msg, getPrivateKey keystring decode = Except.error (PyErr.userException msg)) ↔
      (decode .rsa = .indexErr ∨
        (decode .rsa = .sshExc ∧ decode .dss ≠ .ok ∧ decode .ecdsa ≠ .ok ∧
          decode .ed25519 ≠ .ok))) := by
  cases h1 : decode .rsa <;> cases h2 : decode .dss <;> cases h3 : decode .ecdsa <;>
    cases h4 : decode .ed25519 <;>
    simp_all [getPrivateKey, parsePrivateKey, isSSHException]

/-- Witness for the amended claim C4: a non-empty key string whose RSA decode
succeeds. -/
theorem C4_amended_key_parse_contract_witness :
    ("k" : String) ≠ "" ∧
    ((∀ d2 : KeyAlg → DecodeOutcome, getPrivateKey "" d2 = Except.ok none) ∧
      ((fun _ : KeyAlg => DecodeOutcome.ok) KeyAlg.rsa = DecodeOutcome.ok →
        getPrivateKey "k" (fun _ => DecodeOutcome.ok) = Except.ok (some KeyAlg.rsa)) ∧
      ((fun _ : KeyAlg => DecodeOutcome.ok) KeyAlg.rsa = DecodeOutcome.sshExc →
        (fun _ : KeyAlg => DecodeOutcome.ok) KeyAlg.dss = DecodeOutcome.ok →
        getPrivateKey "k" (fun _ => DecodeOutcome.ok) = Except.ok (some KeyAlg.dss)) ∧
      ((fun _ : KeyAlg => DecodeOutcome.ok) KeyAlg.rsa = DecodeOutcome.sshExc →
        (fun _ : KeyAlg => DecodeOutcome.ok) KeyAlg.dss ≠ DecodeOutcome.ok →
        (fun _ : KeyAlg => DecodeOutcome.ok) KeyAlg.ecdsa = DecodeOutcome.ok →
        getPrivateKey "k" (fun _ => DecodeOutcome.ok) = Except.ok (some KeyAlg.ecdsa)) ∧
      ((fun _ : KeyAlg => DecodeOutcome.ok) KeyAlg.rsa = DecodeOutcome.sshExc →
        (fun _ : KeyAlg => DecodeOutcome.ok) KeyAlg.dss ≠ DecodeOutcome.ok →
        (fun _ : KeyAlg => DecodeOutcome.ok) KeyAlg.ecdsa ≠ DecodeOutcome.ok →
        (fun _ : KeyAlg => DecodeOutcome.ok) KeyAlg.ed25519 = DecodeOutcome.ok →
        getPrivateKey "k" (fun _ => DecodeOutcome.ok) = Except.ok (some KeyAlg.ed25519)) ∧
      ((∃ msg, getPrivateKey "k" (fun _ => DecodeOutcome.ok) =
          Except.error (PyErr.userException msg)) ↔
        ((fun _ : KeyAlg => DecodeOutcome.ok) KeyAlg.rsa = DecodeOutcome.indexErr ∨
          ((fun _ : KeyAlg => DecodeOutcome.ok) KeyAlg.rsa = DecodeOutcome.sshExc ∧
            (fun _ : KeyAlg => DecodeOutcome.ok) KeyAlg.dss ≠ DecodeOutcome.ok ∧
            (fun _ : KeyAlg => DecodeOutcome.ok) KeyAlg.ecdsa ≠ DecodeOutcome.ok ∧
            (fun _ : KeyAlg => DecodeOutcome.ok) KeyAlg.ed25519 ≠ DecodeOutcome.ok)))) :=
  ⟨by decide, C4_amended_key_parse_contract "k" (fun _ => DecodeOutcome.ok) (by decide)⟩

/-- Claim C5, counterexample: for a dotfile name with date-stamping enabled the
code puts the timestamp after the whole name (os.path.splitext treats a
leading-dot name as having no extension), while the claim formula — extension
is everything from the last dot of the name onward — puts the timestamp before
it. -/
theorem C5_counterexample :
    getOutputDestination ⟨"/d/", true, some "%Y%m%d"⟩ (fun _ => "20240102") ".bashrc" =
      Except.ok "/d/.bashrc_20240102" ∧
    resolveClaimFormula "/d/" ".bashrc" true (some "%Y%m%d") (fun _ => "20240102") =
      "/d/_20240102.bashrc" ∧
    ("/d/.bashrc_20240102" : String) ≠ "/d/_20240102.bashrc" := by decide

/-- Claim C5 (amended): for every non-empty base directory the resolved
destination equals normalized_base ++ stem ++ optional_suffix ++ extension,
where the stem/extension split is `os.path.splitext` applied to the basename
of the logical name (a last dot preceded only by dots yields an empty
extension, so dotfiles keep their whole name as the stem), and optional_suffix
is an underscore followed by the current UTC time in the configured format
(default "%Y%m%d%H%M%S") when date-stamping is enabled, else empty; in
particular resolving "/remote/dir" and "report.csv" without date-stamping
yields "/remote/dir/report.csv". -/
theorem C5_amended_destination_formula (params : Params) (clock : String → String)
    (name : String) (h : params.remotePath ≠ "") :
    (∃ base, normalizeRemotePath params.remotePath = Except.ok base ∧
      getOutputDestination params clock name =
        Except.ok (base ++ (splitext (basename name)).1 ++
          (if params.appendDate then
            "_" ++ clock (params.appendDateFormat.getD "%Y%m%d%H%M%S")
          else "") ++
          (splitext (basename name)).2)) ∧
    (∀ clock2 : String → String,
      getOutputDestination ⟨"/remote/dir", false, none⟩ clock2 "report.csv" =
        Except.ok "/remote/dir/report.csv") := by
  constructor
  · have hne : params.remotePath.data ≠ [] :=
      fun hd => h (show params.remotePath = "" from String.ext hd)
    cases hl : params.remotePath.data.getLast? with
    | none => exact absurd (List.getLast?_eq_none_iff.mp hl) hne
    | some c =>
      refine ⟨if c ≠ '/' then params.remotePath ++ "/" else params.remotePath, ?_, ?_⟩
      · simp [normalizeRemotePath, hl]
      · simp [getOutputDestination, normalizeRemotePath, hl]
  · intro clock2
    rfl

/-- Witness for the amended claim C5 at a concrete configuration with
date-stamping enabled. -/
theorem C5_amended_destination_formula_witness :
    (⟨"/remote/dir", true, none⟩ : Params).remotePath ≠ "" ∧
    ((∃ base, normalizeRemotePath (⟨"/remote/dir", true, none⟩ : Params).remotePath =
        Except.ok base ∧
      getOutputDestination ⟨"/remote/dir", true, none⟩ (fun _ => "20240102030405")
          "report.csv" =
        Except.ok (base ++ (splitext (basename "report.csv")).1 ++
          (if (⟨"/remote/dir", true, none⟩ : Params).appendDate then
            "_" ++ (fun _ : String => "20240102030405")
              ((⟨"/remote/dir", true, none⟩ : Params).appendDateFormat.getD "%Y%m%d%H%M%S")
          else "") ++
          (splitext (basename "report.csv")).2)) ∧
      (∀ clock2 : String → String,
        getOutputDestination ⟨"/remote/dir", false, none⟩ clock2 "report.csv" =
          Except.ok "/remote/dir/report.csv")) :=
  ⟨by decide,
    C5_amended_destination_formula ⟨"/remote/dir", true, none⟩ (fun _ => "20240102030405")
      "report.csv" (by decide)⟩

/-- Claim C6: the upload never makes more than 5 attempts; if every attempt
raises FileNotFoundError the 5th attempt is the last and the terminal error is
classified as the RemotePathNotFound UserException, whose message names the
configured remote path; and if the attempts before some k-th attempt (k at
most 5) all raise retryable errors while the k-th succeeds, the upload
succeeds after exactly k attempts. -/
theorem C6_upload_retry_bounded (params : Params) (clock : String → String) (name : String)
    (op : Nat → Except PyErr Unit) (hbase : params.remotePath ≠ "") :
    (uploadFile params clock name op).2 ≤ 5 ∧
    ((∀ n, op n = Except.error PyErr.fileNotFoundError) →
      uploadFile params clock name op =
        (Except.error (PyErr.userException (remotePathNotFoundMessage params.remotePath)), 5)) ∧
    (∀ k, 1 ≤ k → k ≤ 5 →
      (∀ j, 1 ≤ j → j < k → ∃ e, op j = Except.error e ∧ isRetryableSftpError e = true) →
      op k = Except.ok () →
      uploadFile params clock name op = (Except.ok (), k)) ∧
    remotePathNotFoundMessage params.remotePath =
      "Destination path: \x27" ++ params.remotePath ++
        "\x27 in SFTP Server not found, recheck the remote destination path" := by
  obtain ⟨d, hd⟩ := getOutputDestination_ok params clock name hbase
  refine ⟨?_, ?_, ?_, rfl⟩
  · rw [uploadFile_eq params clock name op d hd]
    show (backoffOnException isRetryableSftpError op 1 5).2 ≤ 5
    exact backoff_count_le isRetryableSftpError op 5 1
  · intro hop
    have hall : tryToExecuteSftpOperation op = (Except.error PyErr.fileNotFoundError, 5) :=
      backoff_all_fail isRetryableSftpError op PyErr.fileNotFoundError hop rfl 4 1
    rw [uploadFile_eq params clock name op d hd, hall]
    rfl
  · intro k hk1 hk5 hprev hok
    have hsucc : tryToExecuteSftpOperation op = (Except.ok (), k + 1 - 1) :=
      backoff_success isRetryableSftpError op 5 1 k hk1 (by omega) hprev hok
    rw [uploadFile_eq params clock name op d hd, hsucc]
    have hk : k + 1 - 1 = k := by omega
    rw [hk]
    rfl

/-- Witness for claim C6 at a concrete configuration and a constantly
not-found operation. -/
theorem C6_upload_retry_bounded_witness :
    (⟨"p", false, none⟩ : Params).remotePath ≠ "" ∧
    ((uploadFile ⟨"p", false, none⟩ (fun _ => "t") "f"
        (fun _ => Except.error PyErr.fileNotFoundError)).2 ≤ 5 ∧
      ((∀ n : Nat, (fun _ : Nat => (Except.error PyErr.fileNotFoundError : Except PyErr Unit)) n =
          Except.error PyErr.fileNotFoundError) →
        uploadFile ⟨"p", false, none⟩ (fun _ => "t") "f"
            (fun _ => Except.error PyErr.fileNotFoundError) =
          (Except.error (PyErr.userException (remotePathNotFoundMessage "p")), 5)) ∧
      (∀ k, 1 ≤ k → k ≤ 5 →
        (∀ j, 1 ≤ j → j < k →
          ∃ e, (fun _ : Nat => (Except.error PyErr.fileNotFoundError : Except PyErr Unit)) j =
            Except.error e ∧ isRetryableSftpError e = true) →
        (fun _ : Nat => (Except.error PyErr.fileNotFoundError : Except PyErr Unit)) k =
          Except.ok () →
        uploadFile ⟨"p", false, none⟩ (fun _ => "t") "f"
            (fun _ => Except.error PyErr.fileNotFoundError) = (Except.ok (), k)) ∧
      remotePathNotFoundMessage "p" =
        "Destination path: \x27" ++ "p" ++
          "\x27 in SFTP Server not found, recheck the remote destination path") :=
  ⟨by decide,
    C6_upload_retry_bounded ⟨"p", false, none⟩ (fun _ => "t") "f"
      (fun _ => Except.error PyErr.fileNotFoundError) (by decide)⟩

/-- Claim C7: after a successful connect, the run closes the connection
exactly once on every exit path — the event trace always ends with exactly one
close of the sftp sub-channel followed by exactly one close of the transport,
and no close occurs earlier; when all tasks succeed every task is attempted in
order and the run succeeds; when a task fails after a succeeding prefix, the
tasks after it are not attempted and its error propagates. -/
theorem C7_connection_released_once (tasks : List (Nat × Except PyErr Unit)) :
    (∃ es, (runComponent tasks).2 = es ++ [Event.closeSftp, Event.closeTransport] ∧
      Event.closeSftp ∉ es ∧ Event.closeTransport ∉ es) ∧
    ((∀ p ∈ tasks, p.2 = Except.ok ()) →
      runComponent tasks =
        (Except.ok (), tasks.map (fun p => Event.upload p.1) ++
          [Event.closeSftp, Event.closeTransport])) ∧
    (∀ pre k e post, tasks = pre ++ (k, Except.error e) :: post →
      (∀ p ∈ pre, p.2 = Except.ok ()) →
      runComponent tasks =
        (Except.error e, (pre.map (fun p => Event.upload p.1) ++ [Event.upload k]) ++
          [Event.closeSftp, Event.closeTransport])) := by
  refine ⟨⟨(runBody tasks).2, rfl, (runBody_no_close tasks).1, (runBody_no_close tasks).2⟩,
    ?_, ?_⟩
  · intro hall
    simp [runComponent, runBody_all_ok tasks hall, closeConnection]
  · intro pre k e post hsplit hpre
    subst hsplit
    simp [runComponent, runBody_first_error pre k e post hpre, closeConnection]

/-- Witness for claim C7: three tasks of which the second fails — the first
two are attempted, the third is not, the error propagates, and the connection
is closed exactly once, sftp sub-channel first. -/
theorem C7_connection_released_once_witness :
    runComponent [(0, Except.ok ()), (1, Except.error PyErr.ioError), (2, Except.ok ())] =
      (Except.error PyErr.ioError,
        [Event.upload 0, Event.upload 1, Event.closeSftp, Event.closeTransport]) := by
  have h := (C7_connection_released_once
    [(0, Except.ok ()), (1, Except.error PyErr.ioError), (2, Except.ok ())]).2.2
    [(0, Except.ok ())] 1 PyErr.ioError [(2, Except.ok ())] rfl (by decide)
  simpa using h

/-- Claim C8: the process exit code is a total function of the run outcome —
normal completion exits 0, every classified user-facing error (surfaced as the
UserException type) exits 1, and every non-UserException failure exits 2. -/
theorem C8_exit_codes (e : PyErr) (h : isUserException e = false) :
    mainExitCode (Except.ok ()) = 0 ∧
    (∀ msg, mainExitCode (Except.error (PyErr.userException msg)) = 1) ∧
    mainExitCode (Except.error e) = 2 := by
  refine ⟨rfl, fun msg => rfl, ?_⟩
  simp [mainExitCode, h]

/-- Witness for claim C8 with the unclassified IndexError. -/
theorem C8_exit_codes_witness :
    isUserException PyErr.indexError = false ∧
    (mainExitCode (Except.ok ()) = 0 ∧
      (∀ msg, mainExitCode (Except.error (PyErr.userException msg)) = 1) ∧
      mainExitCode (Except.error PyErr.indexError) = 2) :=
  ⟨by decide, C8_exit_codes PyErr.indexError (by decide)⟩

/-- Claim C9: with an empty configured remote base path, destination
resolution raises IndexError from the unguarded last-character index;
IndexError is not a UserException, so the top-level handler classifies it on
the unclassified fatal path (exit code 2); for every non-empty base path the
resolution succeeds. -/
theorem C9_empty_base_unclassified (params : Params) (clock : String → String)
    (name : String) (h : params.remotePath ≠ "") :
    (∀ (flag : Bool) (fmt : Option String) (clock2 : String → String) (name2 : String),
      getOutputDestination ⟨"", flag, fmt⟩ clock2 name2 = Except.error PyErr.indexError) ∧
    isUserException PyErr.indexError = false ∧
    mainExitCode (Except.error PyErr.indexError) = 2 ∧
    (∃ dest, getOutputDestination params clock name = Except.ok dest) := by
  exact ⟨fun flag fmt clock2 name2 => rfl, rfl, rfl,
    getOutputDestination_ok params clock name h⟩

/-- Witness for claim C9 at a concrete non-empty base path. -/
theorem C9_empty_base_unclassified_witness :
    (⟨"/remote", false, none⟩ : Params).remotePath ≠ "" ∧
    ((∀ (flag : Bool) (fmt : Option String) (clock2 : String → String) (name2 : String),
      getOutputDestination ⟨"", flag, fmt⟩ clock2 name2 = Except.error PyErr.indexError) ∧
    isUserException PyErr.indexError = false ∧
    mainExitCode (Except.error PyErr.indexError) = 2 ∧
    (∃ dest, getOutputDestination ⟨"/remote", false, none⟩ (fun _ => "t") "f" =
      Except.ok dest)) :=
  ⟨by decide, C9_empty_base_unclassified ⟨"/remote", false, none⟩ (fun _ => "t") "f" (by decide)⟩

/-- Claim C10: the fallback chain is asymmetric for IndexError — an IndexError
at the RSA stage propagates at once (only RSA is attempted, the later three
algorithms never run) while an IndexError at the DSA or ECDSA stage advances
the chain to the next algorithm; one at the Ed25519 stage is re-raised; in
every such case `get_private_key` converts the final error into the fatal
invalid-credential UserException. -/
theorem C10_rsa_index_error_asymmetry (decode : KeyAlg → DecodeOutcome)
    (keystring : String) (h : keystring ≠ "") :
    (decode .rsa = .indexErr →
      parsePrivateKey decode = (Except.error PyErr.indexError, [KeyAlg.rsa]) ∧
      getPrivateKey keystring decode =
        Except.error (PyErr.userException parsePrivateKeyFailedMessage)) ∧
    (decode .rsa = .sshExc → decode .dss = .indexErr →
      KeyAlg.ecdsa ∈ (parsePrivateKey decode).2) ∧
    (decode .rsa = .sshExc → decode .dss ≠ .ok → decode .ecdsa = .indexErr →
      KeyAlg.ed25519 ∈ (parsePrivateKey decode).2) ∧
    (decode .rsa = .sshExc → decode .dss ≠ .ok → decode .ecdsa ≠ .ok →
      decode .ed25519 = .indexErr →
      getPrivateKey keystring decode =
        Except.error (PyErr.userException parsePrivateKeyFailedMessage)) := by
  refine ⟨?_, ?_, ?_, ?_⟩
  · intro h1
    constructor
    · simp [parsePrivateKey, h1]
    · simp [getPrivateKey, parsePrivateKey, h, h1]
  · intro h1 h2
    cases h3 : decode .ecdsa with
    | ok => simp [parsePrivateKey, h1, h2, h3]
    | sshExc => cases h4 : decode .ed25519 <;> simp [parsePrivateKey, h1, h2, h3, h4]
    | indexErr => cases h4 : decode .ed25519 <;> simp [parsePrivateKey, h1, h2, h3, h4]
  · intro h1 h2 h3
    cases hdss : decode .dss with
    | ok => exact absurd hdss h2
    | sshExc => cases h4 : decode .ed25519 <;> simp [parsePrivateKey, h1, hdss, h3, h4]
    | indexErr => cases h4 : decode .ed25519 <;> simp [parsePrivateKey, h1, hdss, h3, h4]
  · intro h1 h2 h3 h4
    cases hdss : decode .dss <;> cases hec : decode .ecdsa <;>
      simp_all [getPrivateKey, parsePrivateKey, isSSHException]

/-- Witness for claim C10: a decode function raising IndexError at the RSA
stage — later algorithms are never attempted and the caller reports the
invalid-credential failure. -/
theorem C10_rsa_index_error_asymmetry_witness :
    ("k" : String) ≠ "" ∧
    (fun _ : KeyAlg => DecodeOutcome.indexErr) KeyAlg.rsa = DecodeOutcome.indexErr ∧
    (parsePrivateKey (fun _ => DecodeOutcome.indexErr) =
      (Except.error PyErr.indexError, [KeyAlg.rsa]) ∧
      getPrivateKey "k" (fun _ => DecodeOutcome.indexErr) =
        Except.error (PyErr.userException parsePrivateKeyFailedMessage)) :=
  ⟨by decide, rfl,
    (C10_rsa_index_error_asymmetry (fun _ => DecodeOutcome.indexErr) "k" (by decide)).1 rfl⟩

end ExSftp
